import Mathlib

/-!
Verification of the loanintel aggregation layer.

This file shallowly embeds the read/aggregation operations of
`src/server/storage.ts` (class `DatabaseStorage`) together with the
`GET /api/fraud/cases` route of `src/server/routes.ts`, over an in-memory
`Store` that plays the role of the Postgres database described by the
drizzle schema (`shared/schema.ts`).

Modelling conventions:
* SQL NUMERIC/DECIMAL and REAL columns are modelled as `ℚ` (exact
  arithmetic; the SQL layer computes the same ratios over exact NUMERIC
  casts, e.g. `CAST(... AS DECIMAL)`).
* Tables are lists of rows in insertion order.  `LEFT JOIN` is modelled
  by null-padding (`Option`) when the right side has no match, and by
  one output row per matching right row otherwise; `INNER JOIN` by the
  cross product of matching rows.  `GROUP BY` enumerates keys in first
  appearance order (SQL leaves the order unspecified); `ORDER BY ... DESC`
  is a stable insertion sort; `LIMIT n` is `List.take n`.
* `SUM` over a group whose values are all NULL is `NULL`; every use in
  the source wraps it in `COALESCE(..., 0)` or in
  `CASE WHEN SUM(..) > 0`, both of which coincide with summing `0` for
  the null-padded rows.  `AVG` skips NULLs, modelled by `List.filterMap`.
* `NOW()` is modelled by a `now : String` parameter: its value is the
  wall-clock time of the call.
* Server-generated uuid primary keys (`gen_random_uuid()`) are modelled
  by a counter `nextId` in the store; each inserted row consumes one id.
-/

/-- `customers` table row (the columns the embedded queries read). -/
structure Customer where
  customerId : String
  firstName : String
  lastName : String
  nationalId : String
  primaryBranch : String
  region : String
deriving DecidableEq

/-- `branches` table row (the columns the embedded queries read). -/
structure Branch where
  branchId : String
  branchName : String
  region : String
deriving DecidableEq

/-- `loans` table row (the columns the embedded queries read). -/
structure Loan where
  loanId : String
  customerId : String
  amount : ℚ
  loanStatus : String
deriving DecidableEq

/-- `daily_branch_performance` table row.  `id` is the uuid primary key
(server-generated on insert). -/
structure DailyPerf where
  id : String
  branchId : String
  recruitedToday : Int
  disbursedAmountKsh : ℚ
  dailyDuesKsh : ℚ
  collectedKsh : ℚ
  arrearsNewKsh : ℚ
  parPercent : ℚ
  dailyTargetKsh : ℚ
deriving DecidableEq

/-- `daily_branch_performance` insert payload: the drizzle insert schema
omits `id` (`createInsertSchema(dailyBranchPerformance).omit(\x7b id: true \x7d)`),
so inserted rows always receive a fresh server-generated uuid. -/
structure InsertDailyPerf where
  branchId : String
  recruitedToday : Int
  disbursedAmountKsh : ℚ
  dailyDuesKsh : ℚ
  collectedKsh : ℚ
  arrearsNewKsh : ℚ
  parPercent : ℚ
  dailyTargetKsh : ℚ
deriving DecidableEq

/-- `ai_customer_features` table row (the columns the embedded queries read). -/
structure AiFeatures where
  customerId : String
  riskScore0100 : ℚ
  defaultProb : ℚ
deriving DecidableEq

/-- `fraud_signals` table row (only its key matters to the embedded queries:
`getFraudCases` left-joins it without selecting any of its columns). -/
structure FraudSignal where
  customerId : String
deriving DecidableEq

/-- The database state read by `DatabaseStorage`.  `nextId` drives the
server-side generation of uuid primary keys. -/
structure Store where
  customers : List Customer
  branches : List Branch
  loans : List Loan
  dailyBranchPerformance : List DailyPerf
  aiCustomerFeatures : List AiFeatures
  fraudSignals : List FraudSignal
  nextId : Nat
deriving DecidableEq

/-- Keep the first occurrence of each element, dropping later duplicates
(the enumeration order we use for SQL `GROUP BY` / `COUNT(DISTINCT ..)`
keys). -/
def dedupFirst [DecidableEq α] : List α → List α
  | [] => []
  | a :: l => a :: dedupFirst (l.filter (fun x => x ≠ a))
termination_by l => l.length
decreasing_by
  simp only [List.length_cons]
  exact Nat.lt_succ_of_le (List.length_filter_le _ _)

/-- `AVG` with `COALESCE(..., 0)`: mean of a list, `0` for the empty list. -/
def avgOrZero (l : List ℚ) : ℚ :=
  if l = [] then 0 else l.sum / l.length

/-- The Aggregation Engine's collection-rate operation as the spec states
it: `totalCollected / totalDues * 100` when `totalDues > 0`, else `0`.
Every granularity in `storage.ts` inlines exactly this guarded ratio as
`CASE WHEN SUM(dues) > 0 THEN SUM(collected) / SUM(dues) * 100 ELSE 0 END`. -/
def computeCollectionRate (totalDues totalCollected : ℚ) : ℚ :=
  if 0 < totalDues then totalCollected / totalDues * 100 else 0

/-! ## getDashboardMetrics -/

/-- One entry of the dashboard's `topPerformingBranches`. -/
structure TopBranch where
  branchId : String
  branchName : String
  region : String
  disbursedAmount : ℚ
  collectionRate : ℚ
deriving DecidableEq

/-- One entry of the dashboard's `recentAlerts`.  `timestamp` is `NOW()`. -/
structure Alert where
  customerId : String
  customerName : String
  type : String
  severity : String
  timestamp : String
deriving DecidableEq

/-- The constant 7-day trend block hard-coded in `getDashboardMetrics`. -/
structure TrendData where
  labels : List String
  disbursements : List ℚ
  collections : List ℚ
deriving DecidableEq

/-- Result shape of `getDashboardMetrics`. -/
structure DashboardMetrics where
  totalDisbursed : ℚ
  totalDisbursedChange : ℚ
  collectionRate : ℚ
  collectionRateChange : ℚ
  totalArrears : ℚ
  totalArrearsChange : ℚ
  parRate : ℚ
  parRateChange : ℚ
  activeCustomers : Nat
  activeLoans : Nat
  topPerformingBranches : List TopBranch
  recentAlerts : List Alert
  trendData : TrendData
deriving DecidableEq

/-- `GROUP BY branches.branchId, branchName, region` keys, in first
appearance order of the `branches` table. -/
def branchKeys (store : Store) : List (String × String × String) :=
  dedupFirst (store.branches.map (fun b => (b.branchId, b.branchName, b.region)))

/-- Daily performance rows of one branch
(`dailyBranchPerformance.branchId = branchId`). -/
def dailyOf (store : Store) (branchId : String) : List DailyPerf :=
  store.dailyBranchPerformance.filter (fun d => d.branchId = branchId)

/-- One group of the dashboard's top-branch query
(`branches LEFT JOIN dailyBranchPerformance`, grouped by branch):
`COALESCE(SUM(disbursed), 0)` and the guarded collection-rate `CASE`. -/
def topBranchOf (store : Store) (k : String × String × String) : TopBranch :=
  let ds := dailyOf store k.1
  let dues := (ds.map (fun d => d.dailyDuesKsh)).sum
  let coll := (ds.map (fun d => d.collectedKsh)).sum
  { branchId := k.1
    branchName := k.2.1
    region := k.2.2
    disbursedAmount := (ds.map (fun d => d.disbursedAmountKsh)).sum
    collectionRate := if 0 < dues then coll / dues * 100 else 0 }

/-- `ORDER BY collection rate DESC` on top-branch records. -/
def byRateDesc (a b : TopBranch) : Prop := b.collectionRate ≤ a.collectionRate

instance : DecidableRel byRateDesc :=
  fun a b => inferInstanceAs (Decidable (b.collectionRate ≤ a.collectionRate))

instance : IsTotal TopBranch byRateDesc :=
  ⟨fun a b => le_total b.collectionRate a.collectionRate⟩

instance : IsTrans TopBranch byRateDesc :=
  ⟨fun _ _ _ h1 h2 => le_trans h2 h1⟩

/-- `customers INNER JOIN aiCustomerFeatures ON customerId` rows. -/
def customerAiRows (store : Store) : List (Customer × AiFeatures) :=
  store.customers.flatMap (fun c =>
    (store.aiCustomerFeatures.filter (fun a => a.customerId = c.customerId)).map
      (fun a => (c, a)))

/-- `ORDER BY aiCustomerFeatures.riskScore0100 DESC` on joined
customer/feature rows. -/
def byRiskDesc (a b : Customer × AiFeatures) : Prop :=
  b.2.riskScore0100 ≤ a.2.riskScore0100

instance : DecidableRel byRiskDesc :=
  fun a b => inferInstanceAs (Decidable (b.2.riskScore0100 ≤ a.2.riskScore0100))

instance : IsTotal (Customer × AiFeatures) byRiskDesc :=
  ⟨fun a b => le_total b.2.riskScore0100 a.2.riskScore0100⟩

instance : IsTrans (Customer × AiFeatures) byRiskDesc :=
  ⟨fun _ _ _ h1 h2 => le_trans h2 h1⟩

/-- Projection of one alert row: name concatenation, the constant alert
type, the severity `CASE`, and the `NOW()` timestamp. -/
def mkAlert (now : String) (x : Customer × AiFeatures) : Alert :=
  { customerId := x.1.customerId
    customerName := x.1.firstName ++ " " ++ x.1.lastName
    type := "Fraud Detection"
    severity :=
      if 70 ≤ x.2.riskScore0100 then "high"
      else if 40 ≤ x.2.riskScore0100 then "medium"
      else "low"
    timestamp := now }

/-- `DatabaseStorage.getDashboardMetrics`.  `now` is the wall-clock time
the query runs at (it feeds the `NOW()` column of `recentAlerts`). -/
def getDashboardMetrics (store : Store) (now : String) : DashboardMetrics :=
  let activeLoanRows := store.loans.filter (fun l => decide (l.loanStatus = "Active"))
  let totalDues := (store.dailyBranchPerformance.map (fun d => d.dailyDuesKsh)).sum
  let totalCollected := (store.dailyBranchPerformance.map (fun d => d.collectedKsh)).sum
  { totalDisbursed := (activeLoanRows.map (fun l => l.amount)).sum
    totalDisbursedChange := 12.5
    collectionRate := if 0 < totalDues then totalCollected / totalDues * 100 else 0
    collectionRateChange := 3.2
    totalArrears := (store.dailyBranchPerformance.map (fun d => d.arrearsNewKsh)).sum
    totalArrearsChange := -5.1
    parRate := avgOrZero (store.dailyBranchPerformance.map (fun d => d.parPercent))
    parRateChange := -2.3
    activeCustomers := store.customers.length
    activeLoans := activeLoanRows.length
    topPerformingBranches :=
      (((branchKeys store).map (topBranchOf store)).insertionSort byRateDesc).take 10
    recentAlerts :=
      ((((customerAiRows store).filter
          (fun x => decide (40 ≤ x.2.riskScore0100))).insertionSort byRiskDesc).take 10).map
        (mkAlert now)
    trendData :=
      { labels := ["Mon", "Tue", "Wed", "Thu", "Fri", "Sat", "Sun"]
        disbursements := [850000, 920000, 780000, 1100000, 950000, 870000, 990000]
        collections := [720000, 810000, 690000, 950000, 850000, 780000, 890000] } }

/-! ## getBranchPerformance -/

/-- Result shape of `getBranchPerformance` (one record per branch group). -/
structure BranchPerf where
  branchId : String
  branchName : String
  region : String
  dailyTarget : ℚ
  dailyCollected : ℚ
  disbursedAmount : ℚ
  arrearsAmount : ℚ
  parPercent : ℚ
  collectionRate : ℚ
  recruitedToday : Int
deriving DecidableEq

/-- `dailyBranchPerformance INNER JOIN branches ON branchId` rows. -/
def perfJoined (store : Store) : List (DailyPerf × Branch) :=
  store.dailyBranchPerformance.flatMap (fun d =>
    (store.branches.filter (fun b => b.branchId = d.branchId)).map (fun b => (d, b)))

/-- `GROUP BY dailyBranchPerformance.branchId, branchName, region` key of a
joined row. -/
def perfKey (x : DailyPerf × Branch) : String × String × String :=
  (x.1.branchId, x.2.branchName, x.2.region)

/-- Aggregates of one branch-performance group: `AVG` target/collected/PAR,
`SUM` disbursed/arrears/recruited, and the guarded collection-rate `CASE`.
(Groups produced by `GROUP BY` are never empty; `avgOrZero` agrees with SQL
`AVG` on them.) -/
def aggBranchGroup (k : String × String × String) (rows : List (DailyPerf × Branch)) :
    BranchPerf :=
  let dues := (rows.map (fun x => x.1.dailyDuesKsh)).sum
  let coll := (rows.map (fun x => x.1.collectedKsh)).sum
  { branchId := k.1
    branchName := k.2.1
    region := k.2.2
    dailyTarget := avgOrZero (rows.map (fun x => x.1.dailyTargetKsh))
    dailyCollected := avgOrZero (rows.map (fun x => x.1.collectedKsh))
    disbursedAmount := (rows.map (fun x => x.1.disbursedAmountKsh)).sum
    arrearsAmount := (rows.map (fun x => x.1.arrearsNewKsh)).sum
    parPercent := avgOrZero (rows.map (fun x => x.1.parPercent))
    collectionRate := if 0 < dues then coll / dues * 100 else 0
    recruitedToday := (rows.map (fun x => x.1.recruitedToday)).sum }

/-- `DatabaseStorage.getBranchPerformance`: scope `"all"` keeps every joined
row, any other scope filters to that branch id; both paths group by
`(branchId, branchName, region)` and produce identically-shaped records.
The `timeRange` argument is accepted and ignored, as in the source. -/
def getBranchPerformance (store : Store) (branchId : String) (_timeRange : String) :
    List BranchPerf :=
  let rows := perfJoined store
  let rows := if branchId = "all" then rows
    else rows.filter (fun x => decide (x.1.branchId = branchId))
  (dedupFirst (rows.map perfKey)).map
    (fun k => aggBranchGroup k (rows.filter (fun x => decide (perfKey x = k))))

/-! ## getRegionalMetrics -/

/-- Result shape of `getRegionalMetrics` (one record per region). -/
structure RegionalMetrics where
  region : String
  totalBranches : Nat
  totalDisbursed : ℚ
  totalCollected : ℚ
  collectionRate : ℚ
  avgParPercent : ℚ
  activeCustomers : Nat
deriving DecidableEq

/-- Customers whose `primaryBranch` is the given branch. -/
def custOf (store : Store) (branchId : String) : List Customer :=
  store.customers.filter (fun c => c.primaryBranch = branchId)

/-- The `LEFT JOIN dailyBranchPerformance` side of one branch: its daily
rows, or a single NULL row when it has none. -/
def dailyPadded (store : Store) (branchId : String) : List (Option DailyPerf) :=
  let ds := dailyOf store branchId
  if ds.isEmpty then [(none : Option DailyPerf)] else ds.map some

/-- The `LEFT JOIN customers` side of one (branch, daily) row: one output
row per customer of the branch, or a single NULL-customer row when it has
none. -/
def custPadded (store : Store) (b : Branch) (d? : Option DailyPerf) :
    List (Branch × Option DailyPerf × Option Customer) :=
  let cs := custOf store b.branchId
  if cs.isEmpty then [(b, d?, (none : Option Customer))]
  else cs.map (fun c => (b, d?, some c))

/-- The joined row set of one region in
`branches LEFT JOIN dailyBranchPerformance ON branchId
LEFT JOIN customers ON primaryBranch`: the first left join null-pads
branches without daily rows, the second pairs every (branch, daily) row
with every customer of the branch (null-padding when there is none). -/
def regionalRows (store : Store) (g : String) :
    List (Branch × Option DailyPerf × Option Customer) :=
  (store.branches.filter (fun b => b.region = g)).flatMap (fun b =>
    (dailyPadded store b.branchId).flatMap (custPadded store b))

/-- Read a numeric column of a null-padded daily row, `0` for NULL (every
use below sits under `COALESCE(SUM(..), 0)` or the `SUM(..) > 0` guard,
for which this agrees with SQL's null-skipping `SUM`). -/
def dailyCol (f : DailyPerf → ℚ) : Option DailyPerf → ℚ
  | some d => f d
  | none => 0

/-- Region-level aggregates over the fanned-out joined rows: `COALESCE`d
sums, the guarded collection-rate `CASE`, null-skipping `AVG(parPercent)`,
and `COUNT(DISTINCT ..)` for branches and customers. -/
def aggRegion (g : String) (rows : List (Branch × Option DailyPerf × Option Customer)) :
    RegionalMetrics :=
  let dues := (rows.map (fun x => dailyCol (fun d => d.dailyDuesKsh) x.2.1)).sum
  let coll := (rows.map (fun x => dailyCol (fun d => d.collectedKsh) x.2.1)).sum
  { region := g
    totalBranches := (dedupFirst (rows.map (fun x => x.1.branchId))).length
    totalDisbursed := (rows.map (fun x => dailyCol (fun d => d.disbursedAmountKsh) x.2.1)).sum
    totalCollected := coll
    collectionRate := if 0 < dues then coll / dues * 100 else 0
    avgParPercent := avgOrZero (rows.filterMap (fun x => x.2.1.map (fun d => d.parPercent)))
    activeCustomers :=
      (dedupFirst (rows.filterMap (fun x => x.2.2.map (fun c => c.customerId)))).length }

/-- The region keys of `GROUP BY branches.region`, in first appearance
order of the `branches` table. -/
def regionsOf (store : Store) : List String :=
  dedupFirst (store.branches.map (fun b => b.region))

/-- `DatabaseStorage.getRegionalMetrics`. -/
def getRegionalMetrics (store : Store) : List RegionalMetrics :=
  (regionsOf store).map (fun g => aggRegion g (regionalRows store g))

/-! ## getFraudCases and its route -/

/-- Result shape of `getFraudCases`.  `fraudFlags` and `mlConfidence` are
the constant columns `ARRAY[]::text[]` and `0.85`; `lastLoanDate` is
`NOW()`. -/
structure FraudCase where
  customerId : String
  customerName : String
  nationalId : String
  riskScore : ℚ
  defaultProb : ℚ
  fraudFlags : List String
  mlConfidence : ℚ
  primaryBranch : String
  region : String
  lastLoanDate : String
deriving DecidableEq

/-- `customers INNER JOIN aiCustomerFeatures LEFT JOIN fraudSignals`:
no `fraudSignals` column is selected, but the left join still repeats a
row once per matching signal (at most one in a store respecting the
`fraud_signals.customer_id` primary key). -/
def fraudJoined (store : Store) : List (Customer × AiFeatures) :=
  (customerAiRows store).flatMap (fun x =>
    List.replicate
      (max 1 ((store.fraudSignals.filter (fun s => s.customerId = x.1.customerId)).length))
      x)

/-- The optional risk-band `WHERE` clause of `getFraudCases`: `high` keeps
scores `≥ 70`, `medium` keeps `[40, 70)`, `low` keeps `< 40`; any other
(or absent) filter keeps everything. -/
def bandFiltered (riskFilter : Option String) (rows : List (Customer × AiFeatures)) :
    List (Customer × AiFeatures) :=
  match riskFilter with
  | some s =>
    if s = "high" then rows.filter (fun x => decide (70 ≤ x.2.riskScore0100))
    else if s = "medium" then
      rows.filter (fun x =>
        decide (40 ≤ x.2.riskScore0100) && decide (x.2.riskScore0100 < 70))
    else if s = "low" then rows.filter (fun x => decide (x.2.riskScore0100 < 40))
    else rows
  | none => rows

/-- Projection of one fraud-case row. -/
def mkFraudCase (now : String) (x : Customer × AiFeatures) : FraudCase :=
  { customerId := x.1.customerId
    customerName := x.1.firstName ++ " " ++ x.1.lastName
    nationalId := x.1.nationalId
    riskScore := x.2.riskScore0100
    defaultProb := x.2.defaultProb
    fraudFlags := []
    mlConfidence := 0.85
    primaryBranch := x.1.primaryBranch
    region := x.1.region
    lastLoanDate := now }

/-- `DatabaseStorage.getFraudCases`: join, optional band filter,
`ORDER BY riskScore0100 DESC`, `LIMIT 50`, then the projection (`NOW()`
is the call's wall-clock time `now`). -/
def getFraudCases (store : Store) (now : String) (riskFilter : Option String) :
    List FraudCase :=
  ((((bandFiltered riskFilter (fraudJoined store)).insertionSort byRiskDesc).take 50).map
    (mkFraudCase now))

/-- The risk filters accepted by `GET /api/fraud/cases`. -/
def validFilters : List String := ["all", "high", "medium", "low"]

/-- The `GET /api/fraud/cases` handler: `(req.query.riskFilter as string)
|| "all"` (so a missing or empty parameter becomes `"all"`), a 400 for a
filter outside `validFilters`, and otherwise a call into the storage
layer with `"all"` mapped to no band restriction. -/
def handleFraudCases (store : Store) (now : String) (riskFilter : Option String) :
    Except String (List FraudCase) :=
  let rf := match riskFilter with
    | none => "all"
    | some s => if s = "" then "all" else s
  if rf ∈ validFilters then
    Except.ok (getFraudCases store now (if rf = "all" then none else some rf))
  else
    Except.error "Invalid risk filter. Must be one of: all, high, medium, low"

/-! ## Bulk inserts -/

/-- Whether the table already holds a row with the given key. -/
def keyMem (key : α → String) (t : List α) (k : String) : Bool :=
  t.any (fun x => key x = k)

/-- One row of `INSERT ... ON CONFLICT DO NOTHING`: appended when its key
is fresh, silently skipped otherwise. -/
def insertNoConflict (key : α → String) (t : List α) (r : α) : List α :=
  if keyMem key t (key r) then t else t ++ [r]

/-- Batch `INSERT ... ON CONFLICT DO NOTHING` (rows are attempted in
order, so a later duplicate of an earlier batch row is also skipped). -/
def bulkInsert (key : α → String) (t : List α) (rows : List α) : List α :=
  rows.foldl (insertNoConflict key) t

/-- `DatabaseStorage.bulkInsertCustomers`: early return on an empty list,
else insert with `onConflictDoNothing` on the `customer_id` primary key. -/
def bulkInsertCustomers (store : Store) (rows : List Customer) : Store :=
  if rows.length = 0 then store
  else { store with customers := bulkInsert (fun c => c.customerId) store.customers rows }

/-- `DatabaseStorage.bulkInsertBranches` (same shape, `branch_id` key). -/
def bulkInsertBranches (store : Store) (rows : List Branch) : Store :=
  if rows.length = 0 then store
  else { store with branches := bulkInsert (fun b => b.branchId) store.branches rows }

/-- `DatabaseStorage.bulkInsertLoans` (same shape, `loan_id` key). -/
def bulkInsertLoans (store : Store) (rows : List Loan) : Store :=
  if rows.length = 0 then store
  else { store with loans := bulkInsert (fun l => l.loanId) store.loans rows }

/-- The server-generated uuid for the `n`-th ever insert. -/
def genId (n : Nat) : String := "uuid-" ++ toString n

/-- Assign consecutive server-generated ids to a batch of daily rows. -/
def assignIds (n : Nat) : List InsertDailyPerf → List DailyPerf
  | [] => []
  | r :: rs =>
    { id := genId n
      branchId := r.branchId
      recruitedToday := r.recruitedToday
      disbursedAmountKsh := r.disbursedAmountKsh
      dailyDuesKsh := r.dailyDuesKsh
      collectedKsh := r.collectedKsh
      arrearsNewKsh := r.arrearsNewKsh
      parPercent := r.parPercent
      dailyTargetKsh := r.dailyTargetKsh } :: assignIds (n + 1) rs

/-- `DatabaseStorage.bulkInsertDailyPerformance`: early return on an empty
list; otherwise every row receives a fresh server-generated uuid primary
key (the insert schema omits `id`), and only then does
`onConflictDoNothing` check that key. -/
def bulkInsertDailyPerformance (store : Store) (rows : List InsertDailyPerf) : Store :=
  if rows.length = 0 then store
  else
    { store with
      dailyBranchPerformance :=
        bulkInsert (fun d => d.id) store.dailyBranchPerformance
          (assignIds store.nextId rows)
      nextId := store.nextId + rows.length }

/-! ## Theorems -/

/-- The empty database, used to instantiate universally quantified store
arguments in witnesses. -/
def emptyStore : Store :=
  { customers := [], branches := [], loans := [], dailyBranchPerformance := [],
    aiCustomerFeatures := [], fraudSignals := [], nextId := 0 }

/-- Claim C1: at every aggregation granularity (portfolio-wide dashboard
summary, per-branch performance, per-branch dashboard ranking, per-region
metrics) the reported `collectionRate` equals
`totalCollected / totalDues * 100` of the group's summed columns when the
summed dues are strictly positive and `0` when they are `0` regardless of
the collected amount, and whenever the summed collected is non-negative
and at most the summed dues the rate lies in `[0, 100]`. -/
theorem collection_rate_every_granularity (store : Store) (now : String) :
    (∀ totalDues totalCollected : ℚ, 0 ≤ totalCollected → totalCollected ≤ totalDues →
      0 ≤ computeCollectionRate totalDues totalCollected ∧
        computeCollectionRate totalDues totalCollected ≤ 100) ∧
    (∀ totalCollected : ℚ, computeCollectionRate 0 totalCollected = 0) ∧
    (getDashboardMetrics store now).collectionRate
      = computeCollectionRate
          ((store.dailyBranchPerformance.map (fun d => d.dailyDuesKsh)).sum)
          ((store.dailyBranchPerformance.map (fun d => d.collectedKsh)).sum) ∧
    (∀ k, (topBranchOf store k).collectionRate
      = computeCollectionRate
          (((dailyOf store k.1).map (fun d => d.dailyDuesKsh)).sum)
          (((dailyOf store k.1).map (fun d => d.collectedKsh)).sum)) ∧
    (∀ k rows, (aggBranchGroup k rows).collectionRate
      = computeCollectionRate ((rows.map (fun x => x.1.dailyDuesKsh)).sum)
          ((rows.map (fun x => x.1.collectedKsh)).sum)) ∧
    (∀ g rows, (aggRegion g rows).collectionRate
      = computeCollectionRate
          ((rows.map (fun x => dailyCol (fun d => d.dailyDuesKsh) x.2.1)).sum)
          ((rows.map (fun x => dailyCol (fun d => d.collectedKsh) x.2.1)).sum)) := by
  refine ⟨?_, ?_, rfl, fun k => rfl, fun k rows => rfl, fun g rows => rfl⟩
  · intro d c hc hcd
    unfold computeCollectionRate
    split
    · rename_i h
      have h1 : 0 ≤ c / d := div_nonneg hc h.le
      have h2 : c / d ≤ 1 := (div_le_one h).mpr hcd
      constructor <;> nlinarith
    · norm_num
  · intro c
    simp [computeCollectionRate]

/-- Witness for C1 at a concrete input (dues 200, collected 150). -/
theorem collection_rate_every_granularity_witness :
    0 ≤ computeCollectionRate 200 150 ∧ computeCollectionRate 200 150 ≤ 100 :=
  (collection_rate_every_granularity emptyStore "t").1 200 150 (by norm_num) (by norm_num)

/-- Claim C5 (amended): the dashboard's top-branch ranking is sorted
non-increasing by collection rate and holds at most 10 entries.  (The
tie-break part of the claim is refuted by
`top_branches_tiebreak_counterexample`: ties follow the branch table's
row order, not the branch identifier.) -/
theorem top_branches_sorted_capped (store : Store) (now : String) :
    List.Pairwise (fun a b => b.collectionRate ≤ a.collectionRate)
      (getDashboardMetrics store now).topPerformingBranches ∧
    (getDashboardMetrics store now).topPerformingBranches.length ≤ 10 := by
  constructor
  · have hs : List.Sorted byRateDesc
        (((branchKeys store).map (topBranchOf store)).insertionSort byRateDesc) :=
      List.sorted_insertionSort byRateDesc _
    exact List.Pairwise.sublist (List.take_sublist _ _) hs
  · have h : ∀ l : List TopBranch, (l.take 10).length ≤ 10 := by
      intro l
      rw [List.length_take]
      exact inf_le_left
    exact h _

/-- Two branches with equal (zero) collection rates, listed in the branch
table with "B2" before "B1". -/
def c5store : Store :=
  { customers := [],
    branches := [{ branchId := "B2", branchName := "Two", region := "R" },
                 { branchId := "B1", branchName := "One", region := "R" }],
    loans := [], dailyBranchPerformance := [], aiCustomerFeatures := [],
    fraudSignals := [], nextId := 0 }

/-- Counterexample to C5 as stated: in `c5store` both branches have
collection rate 0, yet the ranking lists "B2" before "B1" although
"B1" < "B2" — the order among equal rates is the branch table's row
order, not ascending branch identifier. -/
theorem top_branches_tiebreak_counterexample :
    (getDashboardMetrics c5store "t").topPerformingBranches.map (fun b => b.branchId)
        = ["B2", "B1"] ∧
    (getDashboardMetrics c5store "t").topPerformingBranches.map (fun b => b.collectionRate)
        = [0, 0] ∧
    ("B1" : String) < "B2" := by
  refine ⟨?_, ?_, by simp; decide⟩ <;>
    simp [getDashboardMetrics, branchKeys, dedupFirst, topBranchOf, dailyOf, c5store,
      List.insertionSort, List.orderedInsert, byRateDesc, Prod.mk.injEq, customerAiRows]

/-- One active loan of 5000 and one completed loan of 9000. -/
def c6store : Store :=
  { customers := [], branches := [],
    loans := [{ loanId := "L1", customerId := "C1", amount := 5000, loanStatus := "Active" },
              { loanId := "L2", customerId := "C1", amount := 9000, loanStatus := "Completed" }],
    dailyBranchPerformance := [], aiCustomerFeatures := [], fraudSignals := [], nextId := 0 }

/-- Claim C6: the dashboard's `totalDisbursed` sums loan amounts over
exactly the loans whose status is `Active`; in particular on `c6store`
(one active loan of 5000, one completed loan of 9000) it reports 5000. -/
theorem dashboard_active_only_disbursed (store : Store) (now : String) :
    (getDashboardMetrics store now).totalDisbursed
        = ((store.loans.filter (fun l => decide (l.loanStatus = "Active"))).map
            (fun l => l.amount)).sum ∧
    (getDashboardMetrics c6store "t").totalDisbursed = 5000 := by
  refine ⟨rfl, ?_⟩
  simp [getDashboardMetrics, c6store]

/-- The timestamp-free projection of a fraud case (drops `lastLoanDate`,
which carries `NOW()`). -/
def fraudData (r : FraudCase) :
    String × String × String × ℚ × ℚ × List String × ℚ × String × String :=
  (r.customerId, r.customerName, r.nationalId, r.riskScore, r.defaultProb,
    r.fraudFlags, r.mlConfidence, r.primaryBranch, r.region)

/-- The timestamp-free projection of a dashboard alert (drops `timestamp`,
which carries `NOW()`). -/
def alertData (a : Alert) : String × String × String × String :=
  (a.customerId, a.customerName, a.type, a.severity)

/-- The timestamp-free projection of the dashboard summary. -/
def dashData (d : DashboardMetrics) :=
  (d.totalDisbursed, d.collectionRate, d.totalArrears, d.parRate, d.activeCustomers,
    d.activeLoans, d.topPerformingBranches, d.recentAlerts.map alertData, d.trendData)

/-- Claim C8 (amended): every aggregation is a pure function of the store
and the call's wall-clock time, and the wall clock only reaches the
`NOW()` columns — two calls at different times agree on everything except
the `lastLoanDate` of fraud cases and the `timestamp` of dashboard
alerts, and `getBranchPerformance` / `getRegionalMetrics` do not read the
clock at all (their embeddings take no `now`).  Byte-identical output of
two calls, as originally claimed, fails: see
`aggregation_timestamp_counterexample`. -/
theorem aggregation_deterministic_modulo_timestamps (store : Store) (t1 t2 : String)
    (f : Option String) :
    (getFraudCases store t1 f).map fraudData = (getFraudCases store t2 f).map fraudData ∧
    dashData (getDashboardMetrics store t1) = dashData (getDashboardMetrics store t2) := by
  constructor
  · simp only [getFraudCases, List.map_map]
    rfl
  · simp only [dashData, getDashboardMetrics, List.map_map]
    rfl

/-- One customer with a risk score of 80 (joined to one AI feature row),
so the fraud listing is non-empty. -/
def c8store : Store :=
  { customers := [{ customerId := "C1", firstName := "F", lastName := "L",
                    nationalId := "N", primaryBranch := "B1", region := "R" }],
    branches := [], loans := [], dailyBranchPerformance := [],
    aiCustomerFeatures := [{ customerId := "C1", riskScore0100 := 80, defaultProb := 0 }],
    fraudSignals := [], nextId := 0 }

/-- Counterexample to C8 as stated: two fraud-case queries over the
unchanged `c8store` at different wall-clock times return different
output, because every returned row carries `lastLoanDate = NOW()`. -/
theorem aggregation_timestamp_counterexample :
    getFraudCases c8store "2024-01-01" none ≠ getFraudCases c8store "2024-01-02" none := by
  simp [getFraudCases, fraudJoined, customerAiRows, bandFiltered, mkFraudCase,
    List.insertionSort, List.orderedInsert, c8store, FraudCase.mk.injEq]

/-! ## Regional fan-out (C2, C3) -/

theorem map_sum_flatMap (l : List α) (f : α → List β) (g : β → ℚ) :
    ((l.flatMap f).map g).sum = (l.map (fun a => ((f a).map g).sum)).sum := by
  induction l with
  | nil => rfl
  | cons a t ih => simp [List.flatMap_cons, ih]

theorem filterMap_flatMap (l : List α) (f : α → List β) (g : β → Option γ) :
    (l.flatMap f).filterMap g = l.flatMap (fun a => (f a).filterMap g) := by
  induction l with
  | nil => rfl
  | cons a t ih => simp [List.flatMap_cons, ih]

/-- The customer weight of a branch in the regional join: each of the
branch's (daily) rows is repeated once per customer of the branch, at
least once. -/
def custWeight (store : Store) (b : Branch) : ℕ :=
  max 1 (custOf store b.branchId).length

theorem sum_map_pad {γ α : Type} (cs : List γ) (x0 : α) (fx : γ → α) (g : α → ℚ) (v : ℚ)
    (h0 : g x0 = v) (h : ∀ c, g (fx c) = v) :
    ((if cs.isEmpty then [x0] else cs.map fx).map g).sum = (max 1 cs.length : ℕ) * v := by
  cases cs with
  | nil => simp [h0]
  | cons c t =>
    have hm : ∀ l : List γ, ((l.map fx).map g).sum = l.length * v := by
      intro l
      induction l with
      | nil => simp
      | cons a tl ih =>
        simp only [List.map_cons, List.sum_cons, h a, ih, List.length_cons]
        push_cast
        ring
    simp only [List.isEmpty_cons, Bool.false_eq_true, if_false, hm]
    rw [Nat.max_eq_right (show (1 : ℕ) ≤ (c :: t).length from
      Nat.succ_le_succ (Nat.zero_le _))]

theorem filterMap_pad {γ α β : Type} (cs : List γ) (x0 : α) (fx : γ → α) (g : α → Option β)
    (v : β) (h0 : g x0 = some v) (h : ∀ c, g (fx c) = some v) :
    (if cs.isEmpty then [x0] else cs.map fx).filterMap g
      = List.replicate (max 1 cs.length) v := by
  cases cs with
  | nil => simp [h0]
  | cons c t =>
    have hm : ∀ l : List γ, (l.map fx).filterMap g = List.replicate l.length v := by
      intro l
      induction l with
      | nil => simp
      | cons a tl ih => simp [h a, ih, List.replicate_succ]
    simp only [List.isEmpty_cons, Bool.false_eq_true, if_false, hm]
    rw [Nat.max_eq_right (show (1 : ℕ) ≤ (c :: t).length from
      Nat.succ_le_succ (Nat.zero_le _))]

theorem filterMap_pad_nil {γ α β : Type} (cs : List γ) (x0 : α) (fx : γ → α)
    (g : α → Option β) (h0 : g x0 = none) (h : ∀ c, g (fx c) = none) :
    (if cs.isEmpty then [x0] else cs.map fx).filterMap g = [] := by
  cases cs with
  | nil => simp [h0]
  | cons c t =>
    have hm : ∀ l : List γ, (l.map fx).filterMap g = [] := by
      intro l
      induction l with
      | nil => simp
      | cons a tl ih => simp [h a, ih]
    simp only [List.isEmpty_cons, Bool.false_eq_true, if_false, hm]

theorem custPadded_col_sum (store : Store) (b : Branch) (d? : Option DailyPerf)
    (f : DailyPerf → ℚ) :
    ((custPadded store b d?).map (fun x => dailyCol f x.2.1)).sum
      = (custWeight store b : ℚ) * dailyCol f d? :=
  sum_map_pad (custOf store b.branchId) _ _ _ _ rfl (fun _ => rfl)

theorem branch_col_sum (store : Store) (b : Branch) (f : DailyPerf → ℚ) :
    (((dailyPadded store b.branchId).flatMap (custPadded store b)).map
        (fun x => dailyCol f x.2.1)).sum
      = (custWeight store b : ℚ) * ((dailyOf store b.branchId).map f).sum := by
  rw [map_sum_flatMap]
  rw [List.map_congr_left (fun d? _ => custPadded_col_sum store b d? f)]
  unfold dailyPadded
  by_cases hds : (dailyOf store b.branchId).isEmpty
  · rw [if_pos hds]
    simp [List.isEmpty_iff.mp hds, dailyCol]
  · rw [if_neg hds]
    rw [List.map_map]
    have hc : ((fun d? => (custWeight store b : ℚ) * dailyCol f d?) ∘ some)
        = fun d => (custWeight store b : ℚ) * f d := rfl
    rw [hc, List.sum_map_mul_left]

theorem regionalRows_col_sum (store : Store) (g : String) (f : DailyPerf → ℚ) :
    ((regionalRows store g).map (fun x => dailyCol f x.2.1)).sum
      = ((store.branches.filter (fun b => b.region = g)).map
          (fun b => (custWeight store b : ℚ) * ((dailyOf store b.branchId).map f).sum)).sum := by
  unfold regionalRows
  rw [map_sum_flatMap]
  exact congrArg List.sum (List.map_congr_left (fun b _ => branch_col_sum store b f))

/-- Claim C2 (amended): `getRegionalMetrics` is the per-region aggregate
of the fanned-out join rows, and a region's `totalDisbursed` /
`totalCollected` are NOT the plain sums over its branches' daily rows:
each branch's daily-row sum is scaled by the branch's customer weight
`max 1 (number of customers whose primaryBranch is the branch)`, because
the second `LEFT JOIN customers` repeats every (branch, daily) row once
per customer.  The plain-sum reading (and with it the N×M scaling law for
stores that hold customers) fails: see
`regional_plain_sum_counterexample`. -/
theorem regional_sums_fanout (store : Store) (g : String) :
    getRegionalMetrics store
        = (regionsOf store).map (fun r => aggRegion r (regionalRows store r)) ∧
    (aggRegion g (regionalRows store g)).totalDisbursed
        = ((store.branches.filter (fun b => b.region = g)).map
            (fun b => (custWeight store b : ℚ)
                * ((dailyOf store b.branchId).map (fun d => d.disbursedAmountKsh)).sum)).sum ∧
    (aggRegion g (regionalRows store g)).totalCollected
        = ((store.branches.filter (fun b => b.region = g)).map
            (fun b => (custWeight store b : ℚ)
                * ((dailyOf store b.branchId).map (fun d => d.collectedKsh)).sum)).sum :=
  ⟨rfl, regionalRows_col_sum store g _, regionalRows_col_sum store g _⟩

/-- One region "R" with a single branch that has one daily row with
disbursed amount 100, and two customers. -/
def c2store : Store :=
  { customers := [{ customerId := "C1", firstName := "F", lastName := "L",
                    nationalId := "N", primaryBranch := "B1", region := "R" },
                  { customerId := "C2", firstName := "F", lastName := "L",
                    nationalId := "N", primaryBranch := "B1", region := "R" }],
    branches := [{ branchId := "B1", branchName := "One", region := "R" }],
    loans := [],
    dailyBranchPerformance :=
      [{ id := "d1", branchId := "B1", recruitedToday := 0,
         disbursedAmountKsh := 100, dailyDuesKsh := 0, collectedKsh := 0,
         arrearsNewKsh := 0, parPercent := 0, dailyTargetKsh := 0 }],
    aiCustomerFeatures := [], fraudSignals := [], nextId := 0 }

/-- Counterexample to C2 as stated: in `c2store` the daily rows of region
"R" sum to a disbursed amount of 100, but `getRegionalMetrics` reports
200 (the single daily row is counted once per customer of its branch). -/
theorem regional_plain_sum_counterexample :
    (getRegionalMetrics c2store).map (fun r => r.totalDisbursed) = [200] ∧
    (c2store.dailyBranchPerformance.map (fun d => d.disbursedAmountKsh)).sum = 100 ∧
    (200 : ℚ) ≠ 100 := by
  refine ⟨?_, by simp [c2store], by norm_num⟩
  simp [getRegionalMetrics, regionsOf, dedupFirst, aggRegion, regionalRows, dailyPadded,
    custPadded, dailyOf, custOf, dailyCol, c2store, Prod.mk.injEq]
  norm_num

theorem branch_par_entries (store : Store) (b : Branch) :
    ((dailyPadded store b.branchId).flatMap (custPadded store b)).filterMap
        (fun x => x.2.1.map (fun d => d.parPercent))
      = (dailyOf store b.branchId).flatMap
          (fun d => List.replicate (custWeight store b) d.parPercent) := by
  rw [filterMap_flatMap]
  unfold dailyPadded
  by_cases hds : (dailyOf store b.branchId).isEmpty
  · rw [if_pos hds]
    have h0 : (custPadded store b none).filterMap
        (fun x => x.2.1.map (fun d => d.parPercent)) = [] :=
      filterMap_pad_nil (custOf store b.branchId) _ _ _ rfl (fun _ => rfl)
    simp [List.isEmpty_iff.mp hds, h0]
  · rw [if_neg hds, List.flatMap_map]
    refine List.flatMap_congr (fun d _ => ?_)
    exact filterMap_pad (custOf store b.branchId) _ _ _ d.parPercent rfl (fun _ => rfl)

/-- Claim C3 (amended): a region's `avgParPercent` is the arithmetic mean
of the fanned-out PAR list in which each daily row of the region appears
`custWeight` times (once per customer of its branch, at least once) — not
the unweighted mean over the region's daily rows, each contributing
exactly once.  The unweighted reading fails: see
`regional_avg_par_counterexample`. -/
theorem regional_avg_par_fanout (store : Store) (g : String) :
    getRegionalMetrics store
        = (regionsOf store).map (fun r => aggRegion r (regionalRows store r)) ∧
    (aggRegion g (regionalRows store g)).avgParPercent
        = avgOrZero ((store.branches.filter (fun b => b.region = g)).flatMap
            (fun b => (dailyOf store b.branchId).flatMap
              (fun d => List.replicate (custWeight store b) d.parPercent))) := by
  refine ⟨rfl, congrArg avgOrZero ?_⟩
  show (regionalRows store g).filterMap _ = _
  unfold regionalRows
  rw [filterMap_flatMap]
  exact List.flatMap_congr (fun b _ => branch_par_entries store b)

/-- One region "R" with branch B1 (one customer, one daily row with PAR 0)
and branch B2 (two customers, one daily row with PAR 30). -/
def c3store : Store :=
  { customers := [{ customerId := "C1", firstName := "F", lastName := "L",
                    nationalId := "N", primaryBranch := "B1", region := "R" },
                  { customerId := "C2", firstName := "F", lastName := "L",
                    nationalId := "N", primaryBranch := "B2", region := "R" },
                  { customerId := "C3", firstName := "F", lastName := "L",
                    nationalId := "N", primaryBranch := "B2", region := "R" }],
    branches := [{ branchId := "B1", branchName := "One", region := "R" },
                 { branchId := "B2", branchName := "Two", region := "R" }],
    loans := [],
    dailyBranchPerformance :=
      [{ id := "d1", branchId := "B1", recruitedToday := 0,
         disbursedAmountKsh := 0, dailyDuesKsh := 0, collectedKsh := 0,
         arrearsNewKsh := 0, parPercent := 0, dailyTargetKsh := 0 },
       { id := "d2", branchId := "B2", recruitedToday := 0,
         disbursedAmountKsh := 0, dailyDuesKsh := 0, collectedKsh := 0,
         arrearsNewKsh := 0, parPercent := 30, dailyTargetKsh := 0 }],
    aiCustomerFeatures := [], fraudSignals := [], nextId := 0 }

/-- Counterexample to C3 as stated: region "R" of `c3store` has two daily
rows with PAR 0 and 30, whose unweighted mean is 15, but
`getRegionalMetrics` reports 20 (= (0 + 30 + 30) / 3, the PAR-30 row being
counted once per customer of its two-customer branch). -/
theorem regional_avg_par_counterexample :
    (getRegionalMetrics c3store).map (fun r => r.avgParPercent) = [20] ∧
    avgOrZero (c3store.dailyBranchPerformance.map (fun d => d.parPercent)) = 15 ∧
    (20 : ℚ) ≠ 15 := by
  refine ⟨?_, ?_, by norm_num⟩
  · simp [getRegionalMetrics, regionsOf, dedupFirst, aggRegion, regionalRows, dailyPadded,
      custPadded, dailyOf, custOf, dailyCol, avgOrZero, c3store, Prod.mk.injEq]
    norm_num
  · simp [avgOrZero, c3store]
    norm_num

/-! ## Empty inputs (C7) -/

theorem regionalRows_all_none (store : Store) (g : String)
    (h : ∀ b ∈ store.branches, b.region = g → dailyOf store b.branchId = []) :
    ∀ x ∈ regionalRows store g, x.2.1 = none := by
  intro x hx
  unfold regionalRows at hx
  rw [List.mem_flatMap] at hx
  obtain ⟨b, hb, hxb⟩ := hx
  rw [List.mem_filter] at hb
  have hreg : b.region = g := by simpa using hb.2
  have hd : dailyOf store b.branchId = [] := h b hb.1 hreg
  rw [List.mem_flatMap] at hxb
  obtain ⟨d?, hd?, hxc⟩ := hxb
  simp only [dailyPadded, hd, List.isEmpty_nil, if_pos, List.mem_singleton] at hd?
  subst hd?
  unfold custPadded at hxc
  by_cases hcs : (custOf store b.branchId).isEmpty
  · rw [if_pos hcs] at hxc
    rw [List.mem_singleton] at hxc
    subst hxc
    rfl
  · rw [if_neg hcs, List.mem_map] at hxc
    obtain ⟨c, _, hc⟩ := hxc
    subst hc
    rfl

theorem bandFiltered_nil (f : Option String) : bandFiltered f [] = [] := by
  cases f <;> simp [bandFiltered]

/-- Claim C7: no aggregation raises on empty input — the embedded
operations are total functions, and every empty or missing group yields
zero-valued aggregates: a region all of whose branches have no daily
rows reports `collectionRate = 0` and `avgParPercent = 0`; with no daily
rows at all the dashboard rates are 0 and the branch-performance listing
is empty; with no branches the regional listing is empty; with no
customers the fraud listing is empty. -/
theorem empty_input_zero_aggregates (store : Store) (now branchId timeRange : String) :
    (∀ r ∈ getRegionalMetrics store,
      (∀ b ∈ store.branches, b.region = r.region → dailyOf store b.branchId = []) →
        r.collectionRate = 0 ∧ r.avgParPercent = 0) ∧
    (store.dailyBranchPerformance = [] →
      (getDashboardMetrics store now).collectionRate = 0 ∧
      (getDashboardMetrics store now).parRate = 0 ∧
      getBranchPerformance store branchId timeRange = []) ∧
    (store.branches = [] → getRegionalMetrics store = []) ∧
    (∀ f, store.customers = [] → getFraudCases store now f = []) := by
  refine ⟨?_, ?_, ?_, ?_⟩
  · intro r hr
    rw [getRegionalMetrics, List.mem_map] at hr
    obtain ⟨g, hg, rfl⟩ := hr
    intro h
    have hnone : ∀ x ∈ regionalRows store g, x.2.1 = none :=
      regionalRows_all_none store g h
    have hdues : ((regionalRows store g).map
        (fun x => dailyCol (fun d => d.dailyDuesKsh) x.2.1)).sum = 0 := by
      refine List.sum_eq_zero ?_
      intro y hy
      rw [List.mem_map] at hy
      obtain ⟨x, hx, rfl⟩ := hy
      rw [hnone x hx]
      rfl
    have hpar : (regionalRows store g).filterMap
        (fun x => x.2.1.map (fun d => d.parPercent)) = [] := by
      rw [List.filterMap_eq_nil_iff]
      intro x hx
      rw [hnone x hx]
      rfl
    constructor
    · show (if 0 < ((regionalRows store g).map
          (fun x => dailyCol (fun d => d.dailyDuesKsh) x.2.1)).sum then _ else 0) = 0
      rw [hdues]
      norm_num
    · show avgOrZero ((regionalRows store g).filterMap
          (fun x => x.2.1.map (fun d => d.parPercent))) = 0
      rw [hpar]
      rfl
  · intro h
    refine ⟨?_, ?_, ?_⟩
    · simp [getDashboardMetrics, h]
    · simp [getDashboardMetrics, h, avgOrZero]
    · simp [getBranchPerformance, perfJoined, h, dedupFirst]
  · intro h
    simp [getRegionalMetrics, regionsOf, h, dedupFirst]
  · intro f h
    simp [getFraudCases, fraudJoined, customerAiRows, h, bandFiltered_nil,
      List.insertionSort]

/-- One branch in region "R" with no daily-performance rows. -/
def c7store : Store :=
  { customers := [], branches := [{ branchId := "B1", branchName := "One", region := "R" }],
    loans := [], dailyBranchPerformance := [], aiCustomerFeatures := [],
    fraudSignals := [], nextId := 0 }

/-- Witness for C7: the region "R" of `c7store` (whose only branch has no
daily rows) reports `collectionRate = 0` and `avgParPercent = 0`. -/
theorem empty_input_zero_aggregates_witness :
    (aggRegion "R" (regionalRows c7store "R")).collectionRate = 0 ∧
    (aggRegion "R" (regionalRows c7store "R")).avgParPercent = 0 :=
  (empty_input_zero_aggregates c7store "t" "all" "daily").1
    (aggRegion "R" (regionalRows c7store "R"))
    (by simp [getRegionalMetrics, regionsOf, dedupFirst, c7store])
    (by
      intro b hb hr
      simp only [c7store, List.mem_singleton] at hb
      subst hb
      simp [dailyOf, c7store])

/-! ## Route validation (C9) -/

/-- Claim C9 (amended): every NON-EMPTY riskFilter value outside
`validFilters` is rejected with the invalid-parameter error before the
storage layer is consulted (the response does not depend on the store);
a missing riskFilter defaults to "all"; the four valid values are passed
through, with "all" mapped to no band restriction.  The original claim's
"every value outside the set" fails for the empty string, which JS
`|| "all"` silently turns into "all": see
`risk_filter_empty_counterexample`. -/
theorem risk_filter_validation (store store2 : Store) (now rf : String) :
    (rf ≠ "" → rf ∉ validFilters →
      handleFraudCases store now (some rf)
          = Except.error "Invalid risk filter. Must be one of: all, high, medium, low" ∧
      handleFraudCases store now (some rf) = handleFraudCases store2 now (some rf)) ∧
    handleFraudCases store now none = Except.ok (getFraudCases store now none) ∧
    handleFraudCases store now (some "all") = Except.ok (getFraudCases store now none) ∧
    handleFraudCases store now (some "high")
        = Except.ok (getFraudCases store now (some "high")) ∧
    handleFraudCases store now (some "medium")
        = Except.ok (getFraudCases store now (some "medium")) ∧
    handleFraudCases store now (some "low")
        = Except.ok (getFraudCases store now (some "low")) := by
  refine ⟨?_, ?_, ?_, ?_, ?_, ?_⟩
  · intro h1 h2
    constructor <;> simp [handleFraudCases, h1, h2]
  all_goals simp [handleFraudCases, validFilters]

/-- Witness for C9 at the concrete invalid filter "bogus". -/
theorem risk_filter_validation_witness :
    handleFraudCases emptyStore "t" (some "bogus")
        = Except.error "Invalid risk filter. Must be one of: all, high, medium, low" :=
  ((risk_filter_validation emptyStore c7store "t" "bogus").1 (by decide) (by decide)).1

/-- One customer with a risk score of 80 so the fraud listing is
non-empty. -/
def c9store : Store :=
  { customers := [{ customerId := "C1", firstName := "F", lastName := "L",
                    nationalId := "N", primaryBranch := "B1", region := "R" }],
    branches := [], loans := [], dailyBranchPerformance := [],
    aiCustomerFeatures := [{ customerId := "C1", riskScore0100 := 80, defaultProb := 0 }],
    fraudSignals := [], nextId := 0 }

/-- Counterexample to C9 as stated: the empty string is outside
`{all, high, medium, low}` yet is NOT rejected — `|| "all"` coerces it to
"all", the storage layer is queried (the response depends on the store),
and rows are returned. -/
theorem risk_filter_empty_counterexample :
    ("" : String) ∉ validFilters ∧
    handleFraudCases c9store "t" (some "") = Except.ok (getFraudCases c9store "t" none) ∧
    handleFraudCases c9store "t" (some "") ≠ handleFraudCases emptyStore "t" (some "") := by
  refine ⟨by decide, by simp [handleFraudCases, validFilters], ?_⟩
  simp [handleFraudCases, validFilters, getFraudCases, fraudJoined, customerAiRows,
    bandFiltered, mkFraudCase, List.insertionSort, List.orderedInsert, c9store, emptyStore]

/-! ## Fraud bands (C4) -/

theorem bandFiltered_high (rows : List (Customer × AiFeatures)) :
    bandFiltered (some "high") rows
      = rows.filter (fun x => decide (70 ≤ x.2.riskScore0100)) := by
  simp [bandFiltered]

theorem bandFiltered_medium (rows : List (Customer × AiFeatures)) :
    bandFiltered (some "medium") rows
      = rows.filter (fun x =>
          decide (40 ≤ x.2.riskScore0100) && decide (x.2.riskScore0100 < 70)) := by
  simp [bandFiltered]

theorem bandFiltered_low (rows : List (Customer × AiFeatures)) :
    bandFiltered (some "low") rows
      = rows.filter (fun x => decide (x.2.riskScore0100 < 40)) := by
  simp [bandFiltered]

theorem bandFiltered_sub {rows : List (Customer × AiFeatures)} (f : Option String)
    {x : Customer × AiFeatures} (h : x ∈ bandFiltered f rows) : x ∈ rows := by
  cases f with
  | none => exact h
  | some s =>
    simp only [bandFiltered] at h
    split at h
    · exact List.mem_of_mem_filter h
    · split at h
      · exact List.mem_of_mem_filter h
      · split at h
        · exact List.mem_of_mem_filter h
        · exact h

theorem bandFiltered_length_le (rows : List (Customer × AiFeatures)) (f : Option String) :
    (bandFiltered f rows).length ≤ rows.length := by
  cases f with
  | none => exact le_refl _
  | some s =>
    simp only [bandFiltered]
    split
    · exact List.length_filter_le _ _
    · split
      · exact List.length_filter_le _ _
      · split
        · exact List.length_filter_le _ _
        · exact le_refl _

theorem mem_fraud_cases {store : Store} {now : String} {f : Option String} {r : FraudCase}
    (h : r ∈ getFraudCases store now f) :
    ∃ x ∈ bandFiltered f (fraudJoined store), r = mkFraudCase now x := by
  unfold getFraudCases at h
  rw [List.mem_map] at h
  obtain ⟨x, hx, rfl⟩ := h
  have hx2 : x ∈ (bandFiltered f (fraudJoined store)).insertionSort byRiskDesc :=
    List.Sublist.mem hx (List.take_sublist _ _)
  exact ⟨x, (List.perm_insertionSort byRiskDesc _).mem_iff.mp hx2, rfl⟩

theorem getFraudCases_of_small {store : Store} (now : String) (f : Option String)
    (h : (fraudJoined store).length ≤ 50) :
    getFraudCases store now f
      = ((bandFiltered f (fraudJoined store)).insertionSort byRiskDesc).map
          (mkFraudCase now) := by
  unfold getFraudCases
  rw [List.take_of_length_le]
  rw [(List.perm_insertionSort byRiskDesc _).length_eq]
  exact le_trans (bandFiltered_length_le _ f) h

theorem mem_fraud_cases_of_small {store : Store} {now : String} {f : Option String}
    {x : Customer × AiFeatures} (h : (fraudJoined store).length ≤ 50)
    (hx : x ∈ bandFiltered f (fraudJoined store)) :
    mkFraudCase now x ∈ getFraudCases store now f := by
  rw [getFraudCases_of_small now f h]
  exact List.mem_map_of_mem _ ((List.perm_insertionSort byRiskDesc _).mem_iff.mpr hx)

/-- Claim C4 (amended): the high / medium / low fraud listings keep
exactly the risk-score ranges `[70, ∞)`, `[40, 70)`, `(-∞, 40)`; every
listing is ordered non-increasing by risk score and capped at 50 rows;
the three bands are pairwise disjoint; and they partition the "all"
listing — every "all" row is in exactly one band and every band row is
in "all" — PROVIDED the joined case list has at most 50 rows, so the cap
does not bind.  With more than 50 rows the cap breaks the partition: see
`fraud_partition_counterexample`. -/
theorem fraud_band_properties (store : Store) (now : String) :
    (∀ r ∈ getFraudCases store now (some "high"), 70 ≤ r.riskScore) ∧
    (∀ r ∈ getFraudCases store now (some "medium"),
        40 ≤ r.riskScore ∧ r.riskScore < 70) ∧
    (∀ r ∈ getFraudCases store now (some "low"), r.riskScore < 40) ∧
    (∀ f, List.Pairwise (fun a b => b.riskScore ≤ a.riskScore)
        (getFraudCases store now f)) ∧
    (∀ f, (getFraudCases store now f).length ≤ 50) ∧
    (∀ r, ¬(r ∈ getFraudCases store now (some "high") ∧
            r ∈ getFraudCases store now (some "medium")) ∧
          ¬(r ∈ getFraudCases store now (some "high") ∧
            r ∈ getFraudCases store now (some "low")) ∧
          ¬(r ∈ getFraudCases store now (some "medium") ∧
            r ∈ getFraudCases store now (some "low"))) ∧
    ((fraudJoined store).length ≤ 50 →
      (∀ r ∈ getFraudCases store now none,
          r ∈ getFraudCases store now (some "high") ∨
          r ∈ getFraudCases store now (some "medium") ∨
          r ∈ getFraudCases store now (some "low")) ∧
      (∀ f, ∀ r ∈ getFraudCases store now f, r ∈ getFraudCases store now none)) := by
  have hhigh : ∀ r ∈ getFraudCases store now (some "high"), 70 ≤ r.riskScore := by
    intro r hr
    obtain ⟨x, hx, rfl⟩ := mem_fraud_cases hr
    rw [bandFiltered_high, List.mem_filter] at hx
    exact of_decide_eq_true hx.2
  have hmed : ∀ r ∈ getFraudCases store now (some "medium"),
      40 ≤ r.riskScore ∧ r.riskScore < 70 := by
    intro r hr
    obtain ⟨x, hx, rfl⟩ := mem_fraud_cases hr
    rw [bandFiltered_medium, List.mem_filter, Bool.and_eq_true] at hx
    exact ⟨of_decide_eq_true hx.2.1, of_decide_eq_true hx.2.2⟩
  have hlow : ∀ r ∈ getFraudCases store now (some "low"), r.riskScore < 40 := by
    intro r hr
    obtain ⟨x, hx, rfl⟩ := mem_fraud_cases hr
    rw [bandFiltered_low, List.mem_filter] at hx
    exact of_decide_eq_true hx.2
  refine ⟨hhigh, hmed, hlow, ?_, ?_, ?_, ?_⟩
  · intro f
    have hs : List.Sorted byRiskDesc
        ((bandFiltered f (fraudJoined store)).insertionSort byRiskDesc) :=
      List.sorted_insertionSort byRiskDesc _
    have ht : List.Pairwise byRiskDesc
        (((bandFiltered f (fraudJoined store)).insertionSort byRiskDesc).take 50) :=
      List.Pairwise.sublist (List.take_sublist _ _) hs
    exact List.Pairwise.map _ (fun a b h => h) ht
  · intro f
    show ((((bandFiltered f (fraudJoined store)).insertionSort byRiskDesc).take 50).map
        (mkFraudCase now)).length ≤ 50
    rw [List.length_map, List.length_take]
    exact inf_le_left
  · intro r
    refine ⟨fun h => ?_, fun h => ?_, fun h => ?_⟩
    · have h1 := hhigh r h.1
      have h2 := hmed r h.2
      linarith [h2.2]
    · have h1 := hhigh r h.1
      have h2 := hlow r h.2
      linarith
    · have h1 := hmed r h.1
      have h2 := hlow r h.2
      linarith [h1.1]
  · intro hsmall
    constructor
    · intro r hr
      obtain ⟨x, hx, rfl⟩ := mem_fraud_cases hr
      have hx0 : x ∈ fraudJoined store := hx
      rcases le_or_lt 70 x.2.riskScore0100 with h70 | h70
      · left
        refine mem_fraud_cases_of_small hsmall ?_
        rw [bandFiltered_high, List.mem_filter]
        exact ⟨hx0, decide_eq_true h70⟩
      rcases le_or_lt 40 x.2.riskScore0100 with h40 | h40
      · right; left
        refine mem_fraud_cases_of_small hsmall ?_
        rw [bandFiltered_medium, List.mem_filter, Bool.and_eq_true]
        exact ⟨hx0, decide_eq_true h40, decide_eq_true h70⟩
      · right; right
        refine mem_fraud_cases_of_small hsmall ?_
        rw [bandFiltered_low, List.mem_filter]
        exact ⟨hx0, decide_eq_true h40⟩
    · intro f r hr
      obtain ⟨x, hx, rfl⟩ := mem_fraud_cases hr
      exact mem_fraud_cases_of_small hsmall (bandFiltered_sub f hx)

/-- 51 customers: 50 with distinct risk scores 120 down to 71 (all
"high") and one with risk score 50 ("medium"), each joined to one AI
feature row — one more joined case than the LIMIT 50 cap. -/
def c4big : Store :=
  { customers := [{ customerId := "a", firstName := "F", lastName := "L",
                    nationalId := "N", primaryBranch := "B1", region := "R" },
                  { customerId := "b", firstName := "F", lastName := "L",
                    nationalId := "N", primaryBranch := "B1", region := "R" },
                  { customerId := "c", firstName := "F", lastName := "L",
                    nationalId := "N", primaryBranch := "B1", region := "R" },
                  { customerId := "d", firstName := "F", lastName := "L",
                    nationalId := "N", primaryBranch := "B1", region := "R" },
                  { customerId := "e", firstName := "F", lastName := "L",
                    nationalId := "N", primaryBranch := "B1", region := "R" },
                  { customerId := "f", firstName := "F", lastName := "L",
                    nationalId := "N", primaryBranch := "B1", region := "R" },
                  { customerId := "g", firstName := "F", lastName := "L",
                    nationalId := "N", primaryBranch := "B1", region := "R" },
                  { customerId := "h", firstName := "F", lastName := "L",
                    nationalId := "N", primaryBranch := "B1", region := "R" },
                  { customerId := "i", firstName := "F", lastName := "L",
                    nationalId := "N", primaryBranch := "B1", region := "R" },
                  { customerId := "j", firstName := "F", lastName := "L",
                    nationalId := "N", primaryBranch := "B1", region := "R" },
                  { customerId := "k", firstName := "F", lastName := "L",
                    nationalId := "N", primaryBranch := "B1", region := "R" },
                  { customerId := "l", firstName := "F", lastName := "L",
                    nationalId := "N", primaryBranch := "B1", region := "R" },
                  { customerId := "m", firstName := "F", lastName := "L",
                    nationalId := "N", primaryBranch := "B1", region := "R" },
                  { customerId := "n", firstName := "F", lastName := "L",
                    nationalId := "N", primaryBranch := "B1", region := "R" },
                  { customerId := "o", firstName := "F", lastName := "L",
                    nationalId := "N", primaryBranch := "B1", region := "R" },
                  { customerId := "p", firstName := "F", lastName := "L",
                    nationalId := "N", primaryBranch := "B1", region := "R" },
                  { customerId := "q", firstName := "F", lastName := "L",
                    nationalId := "N", primaryBranch := "B1", region := "R" },
                  { customerId := "r", firstName := "F", lastName := "L",
                    nationalId := "N", primaryBranch := "B1", region := "R" },
                  { customerId := "s", firstName := "F", lastName := "L",
                    nationalId := "N", primaryBranch := "B1", region := "R" },
                  { customerId := "t", firstName := "F", lastName := "L",
                    nationalId := "N", primaryBranch := "B1", region := "R" },
                  { customerId := "u", firstName := "F", lastName := "L",
                    nationalId := "N", primaryBranch := "B1", region := "R" },
                  { customerId := "v", firstName := "F", lastName := "L",
                    nationalId := "N", primaryBranch := "B1", region := "R" },
                  { customerId := "w", firstName := "F", lastName := "L",
                    nationalId := "N", primaryBranch := "B1", region := "R" },
                  { customerId := "x", firstName := "F", lastName := "L",
                    nationalId := "N", primaryBranch := "B1", region := "R" },
                  { customerId := "y", firstName := "F", lastName := "L",
                    nationalId := "N", primaryBranch := "B1", region := "R" },
                  { customerId := "z", firstName := "F", lastName := "L",
                    nationalId := "N", primaryBranch := "B1", region := "R" },
                  { customerId := "A", firstName := "F", lastName := "L",
                    nationalId := "N", primaryBranch := "B1", region := "R" },
                  { customerId := "B", firstName := "F", lastName := "L",
                    nationalId := "N", primaryBranch := "B1", region := "R" },
                  { customerId := "C", firstName := "F", lastName := "L",
                    nationalId := "N", primaryBranch := "B1", region := "R" },
                  { customerId := "D", firstName := "F", lastName := "L",
                    nationalId := "N", primaryBranch := "B1", region := "R" },
                  { customerId := "E", firstName := "F", lastName := "L",
                    nationalId := "N", primaryBranch := "B1", region := "R" },
                  { customerId := "F", firstName := "F", lastName := "L",
                    nationalId := "N", primaryBranch := "B1", region := "R" },
                  { customerId := "G", firstName := "F", lastName := "L",
                    nationalId := "N", primaryBranch := "B1", region := "R" },
                  { customerId := "H", firstName := "F", lastName := "L",
                    nationalId := "N", primaryBranch := "B1", region := "R" },
                  { customerId := "I", firstName := "F", lastName := "L",
                    nationalId := "N", primaryBranch := "B1", region := "R" },
                  { customerId := "J", firstName := "F", lastName := "L",
                    nationalId := "N", primaryBranch := "B1", region := "R" },
                  { customerId := "K", firstName := "F", lastName := "L",
                    nationalId := "N", primaryBranch := "B1", region := "R" },
                  { customerId := "L", firstName := "F", lastName := "L",
                    nationalId := "N", primaryBranch := "B1", region := "R" },
                  { customerId := "M", firstName := "F", lastName := "L",
                    nationalId := "N", primaryBranch := "B1", region := "R" },
                  { customerId := "N", firstName := "F", lastName := "L",
                    nationalId := "N", primaryBranch := "B1", region := "R" },
                  { customerId := "O", firstName := "F", lastName := "L",
                    nationalId := "N", primaryBranch := "B1", region := "R" },
                  { customerId := "P", firstName := "F", lastName := "L",
                    nationalId := "N", primaryBranch := "B1", region := "R" },
                  { customerId := "Q", firstName := "F", lastName := "L",
                    nationalId := "N", primaryBranch := "B1", region := "R" },
                  { customerId := "R", firstName := "F", lastName := "L",
                    nationalId := "N", primaryBranch := "B1", region := "R" },
                  { customerId := "S", firstName := "F", lastName := "L",
                    nationalId := "N", primaryBranch := "B1", region := "R" },
                  { customerId := "T", firstName := "F", lastName := "L",
                    nationalId := "N", primaryBranch := "B1", region := "R" },
                  { customerId := "U", firstName := "F", lastName := "L",
                    nationalId := "N", primaryBranch := "B1", region := "R" },
                  { customerId := "V", firstName := "F", lastName := "L",
                    nationalId := "N", primaryBranch := "B1", region := "R" },
                  { customerId := "W", firstName := "F", lastName := "L",
                    nationalId := "N", primaryBranch := "B1", region := "R" },
                  { customerId := "X", firstName := "F", lastName := "L",
                    nationalId := "N", primaryBranch := "B1", region := "R" },
                  { customerId := "Y", firstName := "F", lastName := "L",
                    nationalId := "N", primaryBranch := "B1", region := "R" }],
    branches := [], loans := [], dailyBranchPerformance := [],
    aiCustomerFeatures := [{ customerId := "a", riskScore0100 := 120, defaultProb := 0 },
                           { customerId := "b", riskScore0100 := 119, defaultProb := 0 },
                           { customerId := "c", riskScore0100 := 118, defaultProb := 0 },
                           { customerId := "d", riskScore0100 := 117, defaultProb := 0 },
                           { customerId := "e", riskScore0100 := 116, defaultProb := 0 },
                           { customerId := "f", riskScore0100 := 115, defaultProb := 0 },
                           { customerId := "g", riskScore0100 := 114, defaultProb := 0 },
                           { customerId := "h", riskScore0100 := 113, defaultProb := 0 },
                           { customerId := "i", riskScore0100 := 112, defaultProb := 0 },
                           { customerId := "j", riskScore0100 := 111, defaultProb := 0 },
                           { customerId := "k", riskScore0100 := 110, defaultProb := 0 },
                           { customerId := "l", riskScore0100 := 109, defaultProb := 0 },
                           { customerId := "m", riskScore0100 := 108, defaultProb := 0 },
                           { customerId := "n", riskScore0100 := 107, defaultProb := 0 },
                           { customerId := "o", riskScore0100 := 106, defaultProb := 0 },
                           { customerId := "p", riskScore0100 := 105, defaultProb := 0 },
                           { customerId := "q", riskScore0100 := 104, defaultProb := 0 },
                           { customerId := "r", riskScore0100 := 103, defaultProb := 0 },
                           { customerId := "s", riskScore0100 := 102, defaultProb := 0 },
                           { customerId := "t", riskScore0100 := 101, defaultProb := 0 },
                           { customerId := "u", riskScore0100 := 100, defaultProb := 0 },
                           { customerId := "v", riskScore0100 := 99, defaultProb := 0 },
                           { customerId := "w", riskScore0100 := 98, defaultProb := 0 },
                           { customerId := "x", riskScore0100 := 97, defaultProb := 0 },
                           { customerId := "y", riskScore0100 := 96, defaultProb := 0 },
                           { customerId := "z", riskScore0100 := 95, defaultProb := 0 },
                           { customerId := "A", riskScore0100 := 94, defaultProb := 0 },
                           { customerId := "B", riskScore0100 := 93, defaultProb := 0 },
                           { customerId := "C", riskScore0100 := 92, defaultProb := 0 },
                           { customerId := "D", riskScore0100 := 91, defaultProb := 0 },
                           { customerId := "E", riskScore0100 := 90, defaultProb := 0 },
                           { customerId := "F", riskScore0100 := 89, defaultProb := 0 },
                           { customerId := "G", riskScore0100 := 88, defaultProb := 0 },
                           { customerId := "H", riskScore0100 := 87, defaultProb := 0 },
                           { customerId := "I", riskScore0100 := 86, defaultProb := 0 },
                           { customerId := "J", riskScore0100 := 85, defaultProb := 0 },
                           { customerId := "K", riskScore0100 := 84, defaultProb := 0 },
                           { customerId := "L", riskScore0100 := 83, defaultProb := 0 },
                           { customerId := "M", riskScore0100 := 82, defaultProb := 0 },
                           { customerId := "N", riskScore0100 := 81, defaultProb := 0 },
                           { customerId := "O", riskScore0100 := 80, defaultProb := 0 },
                           { customerId := "P", riskScore0100 := 79, defaultProb := 0 },
                           { customerId := "Q", riskScore0100 := 78, defaultProb := 0 },
                           { customerId := "R", riskScore0100 := 77, defaultProb := 0 },
                           { customerId := "S", riskScore0100 := 76, defaultProb := 0 },
                           { customerId := "T", riskScore0100 := 75, defaultProb := 0 },
                           { customerId := "U", riskScore0100 := 74, defaultProb := 0 },
                           { customerId := "V", riskScore0100 := 73, defaultProb := 0 },
                           { customerId := "W", riskScore0100 := 72, defaultProb := 0 },
                           { customerId := "X", riskScore0100 := 71, defaultProb := 0 },
                           { customerId := "Y", riskScore0100 := 50, defaultProb := 0 }],
    fraudSignals := [], nextId := 0 }

/-- Counterexample to C4 as stated: on `c4big` the "medium" listing
holds the score-50 case, but the "all" listing (capped at 50 rows) holds
only the fifty high-score cases — so the medium case is missing from
"all" and the three bands do not partition it. -/
theorem fraud_partition_counterexample :
    (getFraudCases c4big "t" (some "medium")).map (fun r => r.riskScore) = [50] ∧
    (getFraudCases c4big "t" none).map (fun r => r.riskScore) = [120, 119, 118, 117, 116, 115, 114, 113, 112, 111, 110, 109, 108, 107, 106, 105, 104, 103, 102, 101, 100, 99, 98, 97, 96, 95, 94, 93, 92, 91, 90, 89, 88, 87, 86, 85, 84, 83, 82, 81, 80, 79, 78, 77, 76, 75, 74, 73, 72, 71] ∧
    (50 : ℚ) ∉ ([120, 119, 118, 117, 116, 115, 114, 113, 112, 111, 110, 109, 108, 107, 106, 105, 104, 103, 102, 101, 100, 99, 98, 97, 96, 95, 94, 93, 92, 91, 90, 89, 88, 87, 86, 85, 84, 83, 82, 81, 80, 79, 78, 77, 76, 75, 74, 73, 72, 71] : List ℚ) := by
  refine ⟨?_, ?_, by norm_num⟩ <;>
    norm_num [getFraudCases, fraudJoined, customerAiRows, bandFiltered, mkFraudCase,
      List.insertionSort, List.orderedInsert, byRiskDesc, c4big]

/-- A high-risk customer of the small C4 witness store. -/
def c4custA : Customer :=
  { customerId := "CA", firstName := "F", lastName := "L", nationalId := "N",
    primaryBranch := "B1", region := "R" }

/-- The AI feature row of `c4custA` (risk score 80). -/
def c4aiA : AiFeatures := { customerId := "CA", riskScore0100 := 80, defaultProb := 0 }

/-- Two customers (scores 80 and 50), comfortably under the cap. -/
def c4small : Store :=
  { customers := [c4custA,
                  { customerId := "CB", firstName := "F", lastName := "L",
                    nationalId := "N", primaryBranch := "B1", region := "R" }],
    branches := [], loans := [], dailyBranchPerformance := [],
    aiCustomerFeatures := [c4aiA,
                           { customerId := "CB", riskScore0100 := 50, defaultProb := 0 }],
    fraudSignals := [], nextId := 0 }

/-- Witness for C4 on `c4small`: the score-80 case is in the "high"
listing, hence (cap not binding) in the "all" listing, and its score is
at least 70. -/
theorem fraud_band_properties_witness :
    mkFraudCase "t" (c4custA, c4aiA) ∈ getFraudCases c4small "t" none ∧
    70 ≤ (mkFraudCase "t" (c4custA, c4aiA)).riskScore := by
  have h := fraud_band_properties c4small "t"
  have hcap : (fraudJoined c4small).length ≤ 50 := by
    simp [fraudJoined, customerAiRows, c4small, c4custA, c4aiA]
  have hmem : mkFraudCase "t" (c4custA, c4aiA) ∈ getFraudCases c4small "t" (some "high") := by
    norm_num [getFraudCases, fraudJoined, customerAiRows, bandFiltered, mkFraudCase,
      List.insertionSort, List.orderedInsert, byRiskDesc, c4small, c4custA, c4aiA]
  exact ⟨(h.2.2.2.2.2.2 hcap).2 (some "high") _ hmem, h.1 _ hmem⟩

/-! ## Bulk inserts (C10) -/

theorem keyMem_insertNoConflict (key : α → String) (t : List α) (r : α) (k : String)
    (h : keyMem key t k = true) : keyMem key (insertNoConflict key t r) k = true := by
  unfold insertNoConflict
  split
  · exact h
  · simp only [keyMem, List.any_append]
    rw [show t.any (fun x => decide (key x = k)) = true from h]
    rfl

theorem keyMem_bulkInsert_mono (key : α → String) (t : List α) (rows : List α) (k : String)
    (h : keyMem key t k = true) : keyMem key (bulkInsert key t rows) k = true := by
  induction rows generalizing t with
  | nil => exact h
  | cons r rs ih => exact ih _ (keyMem_insertNoConflict key t r k h)

theorem keyMem_bulkInsert_self (key : α → String) (t : List α) (rows : List α) :
    ∀ x ∈ rows, keyMem key (bulkInsert key t rows) (key x) = true := by
  induction rows generalizing t with
  | nil => intro x hx; cases hx
  | cons r rs ih =>
    intro x hx
    rw [List.mem_cons] at hx
    rcases hx with rfl | hx
    · show keyMem key (bulkInsert key (insertNoConflict key t x) rs) (key x) = true
      apply keyMem_bulkInsert_mono
      unfold insertNoConflict
      split
      · assumption
      · simp [keyMem, List.any_append]
    · exact ih _ x hx

theorem bulkInsert_of_all_mem (key : α → String) (t : List α) (rows : List α)
    (h : ∀ x ∈ rows, keyMem key t (key x) = true) : bulkInsert key t rows = t := by
  induction rows with
  | nil => rfl
  | cons r rs ih =>
    show bulkInsert key (insertNoConflict key t r) rs = t
    rw [insertNoConflict, if_pos (h r (List.mem_cons_self r rs))]
    exact ih (fun x hx => h x (List.mem_cons_of_mem _ hx))

theorem bulkInsert_idem (key : α → String) (t : List α) (rows : List α) :
    bulkInsert key (bulkInsert key t rows) rows = bulkInsert key t rows :=
  bulkInsert_of_all_mem key _ rows (keyMem_bulkInsert_self key t rows)

theorem bulkInsert_append (key : α → String) (t : List α) (rows : List α) :
    ∃ ys, bulkInsert key t rows = t ++ ys := by
  induction rows generalizing t with
  | nil => exact ⟨[], by simp [bulkInsert]⟩
  | cons r rs ih =>
    show ∃ ys, bulkInsert key (insertNoConflict key t r) rs = t ++ ys
    unfold insertNoConflict
    split
    · exact ih t
    · obtain ⟨ys, hys⟩ := ih (t ++ [r])
      exact ⟨[r] ++ ys, by rw [hys, List.append_assoc]⟩

theorem find?_bulkInsert (key : α → String) (t : List α) (rows : List α) (p : α → Bool)
    (h : (t.find? p).isSome = true) : (bulkInsert key t rows).find? p = t.find? p := by
  obtain ⟨ys, hys⟩ := bulkInsert_append key t rows
  rw [hys, List.find?_append]
  obtain ⟨v, hv⟩ := Option.isSome_iff_exists.mp h
  simp [hv]

theorem bulkInsert_all_fresh (key : α → String) (t : List α) (rows : List α)
    (h1 : ∀ x ∈ rows, keyMem key t (key x) = false)
    (h2 : rows.Pairwise (fun a b => key a ≠ key b)) :
    bulkInsert key t rows = t ++ rows := by
  induction rows generalizing t with
  | nil => simp [bulkInsert]
  | cons r rs ih =>
    show bulkInsert key (insertNoConflict key t r) rs = t ++ r :: rs
    rw [List.pairwise_cons] at h2
    rw [insertNoConflict, if_neg (by simp [h1 r (List.mem_cons_self r rs)])]
    have h1a : ∀ x ∈ rs, keyMem key (t ++ [r]) (key x) = false := by
      intro x hx
      have ha := h1 x (List.mem_cons_of_mem _ hx)
      have hb := h2.1 x hx
      simp only [keyMem, List.any_append, Bool.or_eq_false_iff]
      refine ⟨ha, ?_⟩
      simp [hb]
    rw [ih (t ++ [r]) h1a h2.2, List.append_assoc]
    rfl

/-- Claim C10 (amended): every bulk insert is a no-op on the empty list;
for tables whose primary key is supplied by the caller (here customers,
keyed `customer_id`), `onConflictDoNothing` silently skips
already-present keys without overwriting (any first-match lookup over
the pre-existing table is unchanged), and re-running the same insert
leaves the store unchanged.  For `daily_branch_performance`, however,
the primary key is a server-generated uuid the insert schema omits, so
the conflict clause never fires: every row is appended, and re-running
duplicates rows instead of being idempotent — see
`daily_bulk_insert_counterexample`. -/
theorem bulk_insert_semantics (store : Store) (crows : List Customer)
    (drows : List InsertDailyPerf) :
    bulkInsertCustomers store [] = store ∧
    bulkInsertDailyPerformance store [] = store ∧
    bulkInsertCustomers (bulkInsertCustomers store crows) crows
        = bulkInsertCustomers store crows ∧
    (∀ p : Customer → Bool, (store.customers.find? p).isSome = true →
      (bulkInsertCustomers store crows).customers.find? p = store.customers.find? p) ∧
    ((∀ d ∈ assignIds store.nextId drows,
        keyMem (fun x => x.id) store.dailyBranchPerformance d.id = false) →
      (assignIds store.nextId drows).Pairwise (fun a b => a.id ≠ b.id) →
      (bulkInsertDailyPerformance store drows).dailyBranchPerformance
        = store.dailyBranchPerformance ++ assignIds store.nextId drows) := by
  refine ⟨rfl, rfl, ?_, ?_, ?_⟩
  · rcases eq_or_ne crows.length 0 with hc | hc
    · rw [List.length_eq_zero] at hc
      subst hc
      rfl
    · simp only [bulkInsertCustomers, if_neg hc]
      rw [bulkInsert_idem]
  · intro p hp
    rcases eq_or_ne crows.length 0 with hc | hc
    · rw [List.length_eq_zero] at hc
      subst hc
      rfl
    · simp only [bulkInsertCustomers, if_neg hc]
      exact find?_bulkInsert _ _ _ p hp
  · intro h1 h2
    rcases eq_or_ne drows.length 0 with hc | hc
    · rw [List.length_eq_zero] at hc
      subst hc
      simp [bulkInsertDailyPerformance, assignIds]
    · simp only [bulkInsertDailyPerformance, if_neg hc]
      exact bulkInsert_all_fresh _ _ _ h1 h2

/-- A daily-performance insert payload for the C10 store. -/
def c10row : InsertDailyPerf :=
  { branchId := "B1", recruitedToday := 1, disbursedAmountKsh := 10, dailyDuesKsh := 10,
    collectedKsh := 10, arrearsNewKsh := 0, parPercent := 0, dailyTargetKsh := 10 }

/-- A store that already holds one daily row (id "d0") and whose next
generated id is number 5. -/
def c10store : Store :=
  { customers := [], branches := [], loans := [],
    dailyBranchPerformance :=
      [{ id := "d0", branchId := "B1", recruitedToday := 0, disbursedAmountKsh := 0,
         dailyDuesKsh := 0, collectedKsh := 0, arrearsNewKsh := 0, parPercent := 0,
         dailyTargetKsh := 0 }],
    aiCustomerFeatures := [], fraudSignals := [], nextId := 5 }

/-- Witness for C10: inserting one daily row into `c10store` appends it
(with its freshly generated id) after the existing row. -/
theorem bulk_insert_semantics_witness :
    (bulkInsertDailyPerformance c10store [c10row]).dailyBranchPerformance
      = c10store.dailyBranchPerformance ++ assignIds c10store.nextId [c10row] :=
  (bulk_insert_semantics c10store [] [c10row]).2.2.2.2
    (by
      have hg : ("d0" : String) ≠ genId 5 := by decide
      simp [assignIds, keyMem, c10store, c10row, hg])
    (by simp [assignIds])

/-- Counterexample to C10 as stated: re-running the same
daily-performance bulk insert does not leave the store unchanged — the
row is appended again under a fresh server-generated id, so the table
grows from one row to two. -/
theorem daily_bulk_insert_counterexample :
    (bulkInsertDailyPerformance (bulkInsertDailyPerformance emptyStore [c10row])
        [c10row]).dailyBranchPerformance.length = 2 ∧
    bulkInsertDailyPerformance (bulkInsertDailyPerformance emptyStore [c10row]) [c10row]
      ≠ bulkInsertDailyPerformance emptyStore [c10row] := by
  have h : genId 0 ≠ genId 1 := by decide
  constructor <;>
    simp [bulkInsertDailyPerformance, bulkInsert, insertNoConflict, keyMem, assignIds,
      emptyStore, c10row, h, Store.mk.injEq]
